import Mathlib

/-!
# Verification of the WhatsApp inbox webhook / send pipeline

Shallow embedding of the core of the `whatsapp-app` repository:

* the serverless webhook handler `apps/api/api/whatsapp/webhook.ts`
  (`parseInboundMessages`, `resolveDealershipId`, `getOrCreateConversation`,
  `insertMessage`, `handleInboundToSupabase`, `handler`);
* the Express server (`src/unnamed/part_008`): `POST /v1/wa/webhook`
  (message loop and status loop) and `POST /v1/messages/send_text`;
* the serverless `send_text` handler (`src/unnamed/part_005`);
* `normalizePhoneE164` (`src/unnamed/part_002`, `src/unnamed/part_003`).

The persistent store (Supabase tables `contacts`, `conversations`,
`messages` from the schema in `src/unnamed/part_008`) is modelled as lists
of records; `gen_random_uuid()` primary keys are modelled by a `nextId`
counter; `timestamptz` values are modelled as natural numbers (the code
only ever writes and compares them).  The partial unique index
`messages_wa_message_id_uq` on `messages (wa_message_id) where
wa_message_id is not null` is modelled by the duplicate check performed
before appending a message row, exactly as the code's
"ignore duplicate key error" branches behave against that index.

Persistence calls can fail at runtime (a Supabase request returning an
error); the error-handling claims are about that possibility.  Failure is
injected at the first persistence call of the per-message pipeline (the
contact upsert): a `faults` list names the phone numbers whose contact
upsert errors, modelling the `cErr` / thrown-fetch branches of the source.
-/

namespace WaApp

/-- A row of `public.contacts` (schema in `src/unnamed/part_008`).
The optional `name` column is never read by the core and is omitted. -/
structure Contact where
  id : Nat
  dealershipId : Nat
  phone : String
  lastSeenAt : Nat
deriving DecidableEq, Repr

/-- A row of `public.conversations`. -/
structure Conversation where
  id : Nat
  dealershipId : Nat
  contactId : Nat
  status : String
  unreadCount : Nat
  lastMessageAt : Nat
deriving DecidableEq, Repr

/-- A row of `public.messages`.  `status` ranges over the
`message_status` enum values `queued/sent/delivered/read/failed`;
`waMessageId` is the nullable provider message id. -/
structure Message where
  id : Nat
  dealershipId : Nat
  conversationId : Nat
  direction : String
  type : String
  textBody : Option String
  status : String
  waMessageId : Option String
deriving DecidableEq, Repr

/-- A row of `public.wa_channels`: provider phone-number-id → tenant. -/
structure WaChannel where
  dealershipId : Nat
  phoneNumberId : String
deriving DecidableEq, Repr

/-- The persistent store: the three mutable tables plus the id counter
standing in for `gen_random_uuid()`. -/
structure Store where
  contacts : List Contact
  conversations : List Conversation
  messages : List Message
  nextId : Nat
deriving DecidableEq, Repr

/-- Environment variables read by the handlers:
`DEFAULT_DEALERSHIP_ID` (`none` models unset/empty) and
`WHATSAPP_PHONE_NUMBER_ID` (`none` models unset/empty, which is falsy in
the JS `env.waPhoneNumberId ||` checks). -/
structure Env where
  defaultDealershipId : Option Nat
  waPhoneNumberId : Option String
deriving DecidableEq, Repr

/-- An HTTP response as seen by the caller: status code plus the
distinguishing tag of the JSON body (`error` field or ok marker). -/
structure HttpResp where
  status : Nat
  tag : String
deriving DecidableEq, Repr

/-- One element of the webhook `value.messages` array, with the fields the
handlers read (`from`, `id`, `type`, `text.body`, `timestamp`); every
field can be absent in the raw JSON.  `from` is a Lean keyword, hence
`msgFrom`. -/
structure WaInboundMsg where
  msgFrom : Option String
  id : Option String
  type : Option String
  textBody : Option String
  timestamp : Option Nat
deriving DecidableEq, Repr

/-- One element of the webhook `value.statuses` array (`id`, `status`). -/
structure WaStatusEvent where
  id : Option String
  status : Option String
deriving DecidableEq, Repr

/-- `entry[i].changes[j].value`: the metadata phone-number-id and the two
event arrays (absent arrays are modelled as `[]`). -/
structure WaChangeValue where
  phoneNumberId : Option String
  messages : List WaInboundMsg
  statuses : List WaStatusEvent
deriving DecidableEq, Repr

/-- One element of the webhook `entry` array. -/
structure WaEntry where
  changes : List WaChangeValue
deriving DecidableEq, Repr

/-- A parsed webhook POST body `{ entry: [...] }`. -/
structure WaPayload where
  entry : List WaEntry
deriving DecidableEq, Repr

/-- Models the JS `s.startsWith("+")` (the only prefix test of the core):
true iff the first character is `'+'`. -/
def strStartsWithPlus (s : String) : Bool :=
  s.data.head? == some '+'

/-- `body?.entry?.[0]?.changes?.[0]?.value` — both webhook handlers read
only the first change of the first entry. -/
def firstChangeValue (p : WaPayload) : Option WaChangeValue :=
  match p.entry.head? with
  | none => none
  | some e => e.changes.head?

/-- `body?.entry?.[0]?.changes?.[0]?.value?.metadata?.phone_number_id || null`
(the `|| null` coerces an empty string to null). -/
def payloadPhoneNumberId (p : WaPayload) : Option String :=
  match firstChangeValue p with
  | none => none
  | some v =>
    match v.phoneNumberId with
    | none => none
    | some pid => if pid == "" then none else some pid

/-- `wa_channels` lookup by `phone_number_id` (both handlers). -/
def lookupChannelTenant (channels : List WaChannel) (pid : String) : Option Nat :=
  match channels.find? (fun ch => ch.phoneNumberId == pid) with
  | some ch => some ch.dealershipId
  | none => none

/-- The `contacts` upsert used by both webhook handlers:
`onConflict: dealership_id,phone_e164`, row `{dealership_id, phone_e164,
last_seen_at}`, returning the row id.  `merge-duplicates` overwrites
`last_seen_at` with the new value when the row exists.  A phone listed in
`faults` makes the call fail, modelling a persistence error (`cErr` /
thrown fetch in the source). -/
def upsertContact (faults : List String) (d : Nat) (phone : String) (ts : Nat)
    (st : Store) : Except String (Nat × Store) :=
  if faults.contains phone then
    .error "contact_upsert_failed"
  else
    match st.contacts.find? (fun c => c.dealershipId == d && c.phone == phone) with
    | some c =>
      .ok (c.id,
        { st with contacts :=
            st.contacts.map (fun c' => if c'.id == c.id then { c' with lastSeenAt := ts } else c') })
    | none =>
      .ok (st.nextId,
        { st with
            contacts := st.contacts ++ [⟨st.nextId, d, phone, ts⟩],
            nextId := st.nextId + 1 })

/-! ## Serverless webhook handler (`apps/api/api/whatsapp/webhook.ts`) -/

/-- The record produced by `parseInboundMessages` for each raw message
(`InboundMessage` in the source).  `timestamp_iso` is the numeric value of
the ISO timestamp the source computes. -/
structure InboundMessage where
  msgFrom : String
  wa_message_id : String
  type : String
  text_body : Option String
  timestamp_iso : Nat
deriving DecidableEq, Repr

/-- `parseInboundMessages` (webhook.ts lines 12–32): reads
`entry[0].changes[0].value.messages`, maps each element to an
`InboundMessage` (`String(msg?.from ?? "")`, `String(msg?.id ?? "")`,
`String(msg?.type ?? "unknown")`, text body only for type `"text"`,
timestamp defaulting to now), and filters out entries with an empty
`from` or an empty `id`. -/
def parseInboundMessages (now : Nat) (body : WaPayload) : List InboundMessage :=
  match firstChangeValue body with
  | none => []
  | some v =>
    (v.messages.map (fun msg =>
      let type := msg.type.getD "unknown"
      ({ msgFrom := msg.msgFrom.getD ""
         wa_message_id := msg.id.getD ""
         type := type
         text_body := if type == "text" then msg.textBody else none
         timestamp_iso := msg.timestamp.getD now } : InboundMessage))).filter
      (fun m => !(m.msgFrom == "") && !(m.wa_message_id == ""))

/-- `resolveDealershipId` (webhook.ts lines 152–175): channel lookup by
the payload's phone-number-id, falling back to
`getEnvOrThrow("DEFAULT_DEALERSHIP_ID")` (which throws when unset). -/
def resolveDealershipId (env : Env) (channels : List WaChannel) (body : WaPayload) :
    Except String Nat :=
  let fallback : Except String Nat :=
    match env.defaultDealershipId with
    | some d => .ok d
    | none => .error "Missing DEFAULT_DEALERSHIP_ID"
  match payloadPhoneNumberId body with
  | some pid =>
    match lookupChannelTenant channels pid with
    | some d => .ok d
    | none => fallback
  | none => fallback

/-- `getOrCreateConversation` (webhook.ts lines 177–247): select by
`(dealership_id, contact_id)`; if absent insert
`{status: "open", unread_count: 1, last_message_at: tsIso}`; if present
PATCH the row to `{last_message_at: tsIso, unread_count: current + 1,
status: "open"}`.  Returns the conversation id and the new store. -/
def getOrCreateConversation (d contactId tsIso : Nat) (st : Store) : Nat × Store :=
  match st.conversations.find? (fun c => c.dealershipId == d && c.contactId == contactId) with
  | none =>
    (st.nextId,
      { st with
          conversations := st.conversations ++ [⟨st.nextId, d, contactId, "open", 1, tsIso⟩],
          nextId := st.nextId + 1 })
  | some existing =>
    let newUnread := existing.unreadCount + 1
    (existing.id,
      { st with conversations :=
          st.conversations.map (fun c =>
            if c.id == existing.id then
              { c with lastMessageAt := tsIso, unreadCount := newUnread, status := "open" }
            else c) })

/-- `insertMessage` (webhook.ts lines 116–150): insert the inbound row
with `direction: "in"`, `status: "delivered"`; a duplicate-key conflict on
the partial unique index over `wa_message_id` is swallowed (the row is
simply not inserted again). -/
def insertMessage (d convId : Nat) (msg : InboundMessage) (st : Store) : Store :=
  if st.messages.any (fun m => m.waMessageId == some msg.wa_message_id) then st
  else
    { st with
        messages := st.messages ++
          [⟨st.nextId, d, convId, "in",
            (if msg.type == "" then "unknown" else msg.type),
            msg.text_body, "delivered", some msg.wa_message_id⟩],
        nextId := st.nextId + 1 }

/-- `handleInboundToSupabase` (webhook.ts lines 249–290): normalize the
phone (`+` prefix), upsert the contact, get/create the conversation,
insert the message. -/
def handleInboundToSupabase (faults : List String) (d : Nat) (msg : InboundMessage)
    (st : Store) : Except String Store :=
  let phoneE164 := if strStartsWithPlus msg.msgFrom then msg.msgFrom else "+" ++ msg.msgFrom
  match upsertContact faults d phoneE164 msg.timestamp_iso st with
  | .error e => .error e
  | .ok (contactId, st1) =>
    let r := getOrCreateConversation d contactId msg.timestamp_iso st1
    .ok (insertMessage d r.1 msg r.2)

/-- The per-message loop of the serverless handler (webhook.ts lines
322–330): each message is processed inside its own try/catch, so a
failing message leaves the store as it was and the loop continues. -/
def runInboundIsolated (faults : List String) (d : Nat) :
    List InboundMessage → Store → Store
  | [], st => st
  | m :: ms, st =>
    match handleInboundToSupabase faults d m st with
    | .ok st' => runInboundIsolated faults d ms st'
    | .error _ => runInboundIsolated faults d ms st

/-- The POST branch of the default export `handler` (webhook.ts lines
292–338).  `body?` is `none` when `JSON.parse(req.body)` throws.  Every
failure — unparseable body, tenant resolution error, per-message errors —
is caught and the handler responds 200 (`// 200 igual (Meta)`). -/
def webhookHandlerPost (env : Env) (channels : List WaChannel) (faults : List String)
    (now : Nat) (body? : Option WaPayload) (st : Store) : HttpResp × Store :=
  match body? with
  | none => (⟨200, "ok"⟩, st)
  | some body =>
    match resolveDealershipId env channels body with
    | .error _ => (⟨200, "ok"⟩, st)
    | .ok d =>
      let inbound := parseInboundMessages now body
      if inbound.isEmpty then (⟨200, "ok_ignored"⟩, st)
      else (⟨200, "ok_count"⟩, runInboundIsolated faults d inbound st)

/-! ## Express server webhook route (`src/unnamed/part_008`, `POST /v1/wa/webhook`) -/

/-- `expressResolveDealership` — part_008 lines 186–197:
`dealershipId = (channel lookup) || env.defaultDealershipId || null`. -/
def expressResolveDealership (env : Env) (channels : List WaChannel) (body : WaPayload) :
    Option Nat :=
  match payloadPhoneNumberId body with
  | some pid =>
    match lookupChannelTenant channels pid with
    | some d => some d
    | none => env.defaultDealershipId
  | none => env.defaultDealershipId

/-- The body of the Express message loop (part_008 lines 206–277) for one
raw message: read `from` (a missing `from` makes `from.startsWith` throw
a TypeError), upsert the contact, find-or-create the conversation
(`unread_count + 1` and `last_message_at := ts` on the existing row),
insert the message row (`type: m.type || "text"`, `status: "delivered"`),
ignoring a duplicate `wa_message_id` error.  There is no per-message
try/catch: an error is propagated to the route's outer catch. -/
def expressHandleMessage (faults : List String) (now d : Nat) (m : WaInboundMsg)
    (st : Store) : Except String Store :=
  match m.msgFrom with
  | none => .error "TypeError_from_undefined"
  | some f =>
    let text := m.textBody
    let waMessageId := m.id
    let ts := m.timestamp.getD now
    let phoneE164 := if strStartsWithPlus f then f else "+" ++ f
    match upsertContact faults d phoneE164 ts st with
    | .error e => .error ("contact_upsert: " ++ e)
    | .ok (contactId, st1) =>
      let r : Nat × Store :=
        match st1.conversations.find? (fun c => c.dealershipId == d && c.contactId == contactId) with
        | none =>
          (st1.nextId,
            { st1 with
                conversations := st1.conversations ++ [⟨st1.nextId, d, contactId, "open", 1, ts⟩],
                nextId := st1.nextId + 1 })
        | some existingConv =>
          let unread := existingConv.unreadCount + 1
          (existingConv.id,
            { st1 with conversations :=
                st1.conversations.map (fun c =>
                  if c.id == existingConv.id then
                    { c with unreadCount := unread, lastMessageAt := ts }
                  else c) })
      let st2 := r.2
      let dup :=
        match waMessageId with
        | some w => st2.messages.any (fun mm => mm.waMessageId == some w)
        | none => false
      .ok (if dup then st2
        else
          { st2 with
              messages := st2.messages ++
                [⟨st2.nextId, d, r.1, "in",
                  (match m.type with
                   | some t => if t == "" then "text" else t
                   | none => "text"),
                  text, "delivered", waMessageId⟩],
              nextId := st2.nextId + 1 })

/-- The Express message loop: messages are processed in order; the first
error stops the loop, keeping the store changes already made and carrying
the error to the outer catch. -/
def expressRunMessages (faults : List String) (now d : Nat) :
    List WaInboundMsg → Store → Store × Option String
  | [], st => (st, none)
  | m :: ms, st =>
    match expressHandleMessage faults now d m st with
    | .ok st' => expressRunMessages faults now d ms st'
    | .error e => (st, some e)

/-- `status === "sent" || ... ? status : "queued"` (part_008 line 285). -/
def mapWaStatus (s : String) : String :=
  if s == "sent" || s == "delivered" || s == "read" || s == "failed" then s else "queued"

/-- One iteration of the status loop (part_008 lines 281–287): skip when
`id` or `status` is falsy, otherwise
`update({status: mapped}).eq("wa_message_id", waMessageId)` — keyed by the
provider message id alone, with no tenant filter. -/
def applyStatusEvent (st : Store) (s : WaStatusEvent) : Store :=
  let waMessageId := s.id.getD ""
  let status := s.status.getD ""
  if waMessageId == "" || status == "" then st
  else
    { st with messages :=
        st.messages.map (fun m =>
          if m.waMessageId == some waMessageId then { m with status := mapWaStatus status }
          else m) }

/-- The status loop of the Express route. -/
def expressRunStatuses : List WaStatusEvent → Store → Store
  | [], st => st
  | s :: rest, st => expressRunStatuses rest (applyStatusEvent st s)

/-- `POST /v1/wa/webhook` (part_008 lines 177–294).  `sigOk` is the result
of `verifyMetaSignature`.  Unlike the serverless handler, a missing
tenant mapping is answered with 500 `missing_dealership_mapping`, and an
error thrown inside the message loop reaches the outer catch, which
answers 500 `webhook_error` (the statuses of that request are then never
processed). -/
def waWebhookPost (env : Env) (channels : List WaChannel) (faults : List String)
    (now : Nat) (sigOk : Bool) (body : WaPayload) (st : Store) : HttpResp × Store :=
  if !sigOk then (⟨401, "invalid_signature"⟩, st)
  else
    match expressResolveDealership env channels body with
    | none => (⟨500, "missing_dealership_mapping"⟩, st)
    | some d =>
      let value := firstChangeValue body
      let messages := (value.map (fun v => v.messages)).getD []
      match expressRunMessages faults now d messages st with
      | (st', some _) => (⟨500, "webhook_error"⟩, st')
      | (st', none) =>
        let statuses := (value.map (fun v => v.statuses)).getD []
        (⟨200, "ok"⟩, expressRunStatuses statuses st')

/-! ## Outbound send (`src/unnamed/part_005` serverless handler and
`src/unnamed/part_008` `POST /v1/messages/send_text`) -/

/-- The authenticated caller context resolved by `requireAuth` /
`authRequired`. -/
structure Auth where
  userId : Nat
  dealershipId : Nat
deriving DecidableEq, Repr

/-- Outcome of the provider send call at the HTTP boundary.
`ok id?` is a 2xx response with parseable JSON, carrying
`response.messages?.[0]?.id || null`; `err` is a network error, a non-2xx
response or an unparseable body (all of which make `sendWhatsAppText` /
`sendWhatsAppMessage` throw). -/
inductive WaSendOutcome where
  | ok (waMessageId : Option String)
  | err (detail : String)
deriving DecidableEq, Repr

/-- `resolvePhoneNumberId` (part_005 lines 41–51; part_008 line 319 plus
lines 587–594): `env.waPhoneNumberId` if set, else the tenant's
`wa_channels` row. -/
def resolvePhoneNumberId (env : Env) (channels : List WaChannel) (d : Nat) :
    Option String :=
  match env.waPhoneNumberId with
  | some p => some p
  | none =>
    match channels.find? (fun ch => ch.dealershipId == d) with
    | some ch => some ch.phoneNumberId
    | none => none

/-- `PATCH /rest/v1/messages?id=eq.{msgId}`. -/
def patchMessage (msgs : List Message) (msgId : Nat) (f : Message → Message) : List Message :=
  msgs.map (fun m => if m.id == msgId then f m else m)

/-- The serverless `send_text` handler (part_005 lines 79–168).
Validation per `BodySchema` (`text: 1..4000`); conversation loaded with
`id=eq.{conversation_id}&dealership_id=eq.{auth.dealershipId}` (404 when
absent); missing contact phone → 500; missing channel → 500; insert the
`queued` row; then the provider call: on throw the row is patched to
`failed` and the caller gets 502 `whatsapp_send_failed`; on success the
row is patched to `{status: "sent", wa_message_id}` and the conversation's
`last_message_at` is patched to now. -/
def sendTextVercel (env : Env) (channels : List WaChannel) (auth : Auth)
    (conversationId : Nat) (text : String) (outcome : WaSendOutcome) (now : Nat)
    (st : Store) : HttpResp × Store :=
  if text.length < 1 || 4000 < text.length then (⟨400, "send_text_error"⟩, st)
  else
    match st.conversations.find?
        (fun c => c.id == conversationId && c.dealershipId == auth.dealershipId) with
    | none => (⟨404, "conversation_not_found"⟩, st)
    | some conv =>
      match st.contacts.find? (fun c => c.id == conv.contactId) with
      | none => (⟨500, "contact_missing_phone"⟩, st)
      | some contact =>
        if contact.phone == "" then (⟨500, "contact_missing_phone"⟩, st)
        else
          match resolvePhoneNumberId env channels auth.dealershipId with
          | none => (⟨500, "missing_phone_number_id"⟩, st)
          | some _ =>
            let msgId := st.nextId
            let queuedRow : Message :=
              ⟨msgId, auth.dealershipId, conversationId, "out", "text",
                some text, "queued", none⟩
            let st1 :=
              { st with
                  messages := st.messages ++ [queuedRow],
                  nextId := st.nextId + 1 }
            match outcome with
            | .err _ =>
              (⟨502, "whatsapp_send_failed"⟩,
               { st1 with messages :=
                  patchMessage st1.messages msgId (fun m => { m with status := "failed" }) })
            | .ok waMessageId =>
              let sentMsgs :=
                patchMessage st1.messages msgId
                  (fun m => { m with status := "sent", waMessageId := waMessageId })
              let st2 := { st1 with messages := sentMsgs }
              let newConvs :=
                st2.conversations.map (fun c =>
                  if c.id == conversationId then { c with lastMessageAt := now } else c)
              (⟨200, "sent"⟩, { st2 with conversations := newConvs })

/-- The Express `POST /v1/messages/send_text` (part_008 lines 304–359).
Same lookup chain, but the whole body sits in one try/catch: a provider
throw is answered with 400 `send_text_error` and the `queued` row is left
untouched (never patched to `failed`); a missing joined contact makes
`conv.contact.phone_e164` throw, also caught as 400. -/
def sendTextExpress (env : Env) (channels : List WaChannel) (auth : Auth)
    (conversationId : Nat) (text : String) (outcome : WaSendOutcome) (now : Nat)
    (st : Store) : HttpResp × Store :=
  if text.length < 1 || 4000 < text.length then (⟨400, "send_text_error"⟩, st)
  else
    match st.conversations.find?
        (fun c => c.id == conversationId && c.dealershipId == auth.dealershipId) with
    | none => (⟨404, "conversation_not_found"⟩, st)
    | some conv =>
      match st.contacts.find? (fun c => c.id == conv.contactId) with
      | none => (⟨400, "send_text_error"⟩, st)
      | some _ =>
        match resolvePhoneNumberId env channels auth.dealershipId with
        | none => (⟨500, "missing_phone_number_id"⟩, st)
        | some _ =>
          let msgId := st.nextId
          let queuedRow : Message :=
            ⟨msgId, auth.dealershipId, conversationId, "out", "text",
              some text, "queued", none⟩
          let st1 :=
            { st with
                messages := st.messages ++ [queuedRow],
                nextId := st.nextId + 1 }
          match outcome with
          | .err _ => (⟨400, "send_text_error"⟩, st1)
          | .ok waMessageId =>
            let sentMsgs :=
              patchMessage st1.messages msgId
                (fun m => { m with status := "sent", waMessageId := waMessageId })
            let st2 := { st1 with messages := sentMsgs }
            let newConvs :=
              st2.conversations.map (fun c =>
                if c.id == conversationId then { c with lastMessageAt := now } else c)
            (⟨200, "ok"⟩, { st2 with conversations := newConvs })

/-! ## Phone normalization (`src/unnamed/part_002` lines 134–140,
`src/unnamed/part_003` lines 1075–1080) -/

/-- The two `replace` passes: drop every whitespace character and every
hyphen from the raw string. -/
def stripPhoneChars (raw : String) : String :=
  (raw.data.filter (fun c => !(c.isWhitespace || c == '-'))).asString

/-- `normalizePhoneE164`: keep a `+`-prefixed number as is; prefix `+54`
to an all-digit number of length ≥ 6 (`/^\d{6,}$/`); otherwise return the
stripped string. -/
def normalizePhoneE164 (raw : String) : String :=
  let s := stripPhoneChars raw
  if strStartsWithPlus s then s
  else if 6 ≤ s.length && s.data.all Char.isDigit then "+54" ++ s
  else s

/-! ## Concrete fixtures -/

/-- The empty store. -/
def emptyStore : Store := ⟨[], [], [], 0⟩

/-- A channel table mapping provider phone-number-id `"PN1"` to tenant 1. -/
def c1Channels : List WaChannel := [⟨1, "PN1"⟩]

/-- Environment with a default tenant and no fixed outbound channel. -/
def c1Env : Env := ⟨some 1, none⟩

/-- The inbound message of the spec's end-to-end scenario. -/
def c1Msg : WaInboundMsg :=
  ⟨some "5491122334455", some "wamid.A", some "text", some "hola", some 1700000000⟩

/-- A webhook payload delivering `c1Msg` on channel `"PN1"`. -/
def c1Payload : WaPayload := ⟨[⟨[⟨some "PN1", [c1Msg], []⟩]⟩]⟩

/-- One delivery of `c1Payload` through the serverless webhook handler. -/
def c1Deliver (st : Store) : Store :=
  (webhookHandlerPost c1Env c1Channels [] 0 (some c1Payload) st).2

/-- The store reached after `n ≥ 1` deliveries of `c1Payload` to the empty
store: one contact, one conversation with `unread_count = n`, one message. -/
def c1StateAfter (n : Nat) : Store :=
  ⟨[⟨0, 1, "+5491122334455", 1700000000⟩],
   [⟨1, 1, 0, "open", n, 1700000000⟩],
   [⟨2, 1, 1, "in", "text", some "hola", "delivered", some "wamid.A"⟩],
   3⟩

/-- Environment for the send fixtures: fixed outbound channel `"PN"`. -/
def c2Env : Env := ⟨none, some "PN"⟩

/-- A store with one contact and one conversation of tenant 1. -/
def c2Store : Store := ⟨[⟨5, 1, "+549", 0⟩], [⟨10, 1, 5, "open", 0, 0⟩], [], 20⟩

/-- A payload whose channel is unmapped, used with an environment that has
no default tenant: tenant resolution fails. -/
def c3Payload : WaPayload := ⟨[⟨[⟨some "PNX", [], []⟩]⟩]⟩

/-- A store with one conversation belonging to tenant 2. -/
def c4Store : Store := ⟨[⟨5, 2, "+549", 0⟩], [⟨10, 2, 5, "open", 0, 0⟩], [], 20⟩

/-- A store with one existing conversation whose `last_message_at` is 100. -/
def c5Store : Store := ⟨[⟨0, 1, "+549", 0⟩], [⟨1, 1, 0, "open", 3, 100⟩], [], 2⟩

/-- An inbound message whose contact upsert will fail (phone `+666`). -/
def c6BadMsg : WaInboundMsg := ⟨some "666", some "wamid.B1", some "text", some "x", some 10⟩

/-- A well-formed inbound message following the failing one. -/
def c6GoodMsg : WaInboundMsg := ⟨some "777", some "wamid.G1", some "text", some "y", some 11⟩

/-- A batch delivering the failing message first, then the good one. -/
def c6Payload : WaPayload := ⟨[⟨[⟨some "PN1", [c6BadMsg, c6GoodMsg], []⟩]⟩]⟩

/-- A payload with two entry elements, each carrying one message in its
first change. -/
def c7Payload : WaPayload :=
  ⟨[⟨[⟨some "PN1", [⟨some "111", some "wamid.X", some "text", some "a", some 5⟩], []⟩]⟩,
    ⟨[⟨some "PN1", [⟨some "222", some "wamid.Y", some "text", some "b", some 6⟩], []⟩]⟩]⟩

/-- A payload batching two messages and two status events inside the first
change of the first entry. -/
def c7BatchPayload : WaPayload :=
  ⟨[⟨[⟨some "PN1",
      [⟨some "111", some "wamid.X", some "text", some "a", some 5⟩,
       ⟨some "222", some "wamid.Y", some "text", some "b", some 6⟩],
      [⟨some "wamid.X", some "read"⟩, ⟨some "wamid.Y", some "failed"⟩]⟩]⟩]⟩

/-- Truncation of a payload to the first change of its first entry: the
part of the envelope the handlers actually read. -/
def firstChangeOnly (p : WaPayload) : WaPayload :=
  match p.entry.head? with
  | none => ⟨[]⟩
  | some e => ⟨[⟨e.changes.take 1⟩]⟩

/-- A store whose only message belongs to tenant 2 and has provider id
`"wamid.T"`. -/
def c10Store : Store :=
  ⟨[], [], [⟨0, 2, 0, "out", "text", some "x", "sent", some "wamid.T"⟩], 1⟩

/-- A status event for `"wamid.T"` arriving on tenant 1's channel. -/
def c10Payload : WaPayload :=
  ⟨[⟨[⟨some "PN1", [], [⟨some "wamid.T", some "read"⟩]⟩]⟩]⟩

/-! ## Helper lemmas -/

theorem list_map_self_of_mem {α : Type} (l : List α) (f : α → α)
    (h : ∀ a ∈ l, f a = a) : l.map f = l := by
  rw [List.map_congr_left h]
  exact l.map_id

/-! ## C9 — phone normalization -/

/-- C9: normalizing an already-normalized E.164 string (leading `+`, no
whitespace or hyphen characters) is the identity, and normalizing the
all-digit string `"2494621182"` under the default country code `+54`
yields `"+542494621182"`. -/
theorem c9_phone_normalization_idempotent (s : String)
    (h1 : strStartsWithPlus s = true)
    (h2 : s.data.all (fun c => !(c.isWhitespace || c == '-')) = true) :
    normalizePhoneE164 s = s ∧ normalizePhoneE164 "2494621182" = "+542494621182" := by
  constructor
  · have hstrip : stripPhoneChars s = s := by
      unfold stripPhoneChars
      rw [List.filter_eq_self.mpr (List.all_eq_true.mp h2)]
      cases s
      rfl
    unfold normalizePhoneE164
    simp [hstrip, h1]
  · decide

/-- Witness for C9 at the concrete number `"+542494621182"`. -/
theorem c9_phone_normalization_idempotent_witness :
    (strStartsWithPlus "+542494621182" = true
      ∧ ("+542494621182" : String).data.all (fun c => !(c.isWhitespace || c == '-')) = true)
    ∧ (normalizePhoneE164 "+542494621182" = "+542494621182"
      ∧ normalizePhoneE164 "2494621182" = "+542494621182") :=
  ⟨⟨by decide, by decide⟩,
   c9_phone_normalization_idempotent "+542494621182" (by decide) (by decide)⟩

/-! ## C8 — status for an unknown provider id is a silent no-op -/

/-- C8: a status event whose provider message id matches no stored message
leaves the store exactly as it was — no row is created, no row is
modified, and no error is raised (`applyStatusEvent` is total). -/
theorem c8_unknown_status_noop (st : Store) (s : WaStatusEvent)
    (h : ∀ m ∈ st.messages, m.waMessageId ≠ some (s.id.getD "")) :
    applyStatusEvent st s = st := by
  have hmap :
      st.messages.map (fun m =>
        if m.waMessageId = some (s.id.getD "") then
          { m with status := mapWaStatus (s.status.getD "") }
        else m) = st.messages := by
    apply list_map_self_of_mem
    intro m hm
    rw [if_neg (h m hm)]
  rcases Bool.eq_false_or_eq_true (s.id.getD "" == "" || s.status.getD "" == "") with
    hguard | hguard
  · simp [applyStatusEvent, hguard]
  · simp [applyStatusEvent, hguard]
    rw [hmap]

/-- Witness for C8: a status for `"wamid.Q"` against a store holding only
`"wamid.Z"`. -/
theorem c8_unknown_status_noop_witness :
    (∀ m ∈ (⟨[], [], [⟨0, 1, 0, "out", "text", some "x", "sent", some "wamid.Z"⟩], 1⟩ : Store).messages,
        m.waMessageId ≠ some ((some "wamid.Q" : Option String).getD ""))
    ∧ applyStatusEvent ⟨[], [], [⟨0, 1, 0, "out", "text", some "x", "sent", some "wamid.Z"⟩], 1⟩
        ⟨some "wamid.Q", some "read"⟩
      = ⟨[], [], [⟨0, 1, 0, "out", "text", some "x", "sent", some "wamid.Z"⟩], 1⟩ :=
  ⟨by decide,
   c8_unknown_status_noop ⟨[], [], [⟨0, 1, 0, "out", "text", some "x", "sent", some "wamid.Z"⟩], 1⟩
     ⟨some "wamid.Q", some "read"⟩ (by decide)⟩

/-! ## C5 — `last_message_at` is overwritten, not advanced to a max -/

/-- C5 counterexample: an inbound event with timestamp 50 applied to an
existing conversation whose `last_message_at` is 100 rewrites
`last_message_at` to 50, not to `max 100 50 = 100`: the claimed
monotonicity does not hold. -/
theorem c5_counterexample :
    ((getOrCreateConversation 1 0 50 c5Store).2.conversations.map
        (fun c => c.lastMessageAt) = [50])
    ∧ ((getOrCreateConversation 1 0 50 c5Store).2.conversations.map
        (fun c => c.lastMessageAt) ≠ [max 100 50]) := by
  decide

/-- C5 amended: on an inbound message for an existing conversation the
handler PATCHes the row to `last_message_at := seenAt` unconditionally
(and increments `unread_count`, forcing `status` to `"open"`); no maximum
with the stored value is taken, so an older timestamp moves
`last_message_at` backward. -/
theorem c5_last_message_at_overwritten (d contactId ts : Nat) (st : Store)
    (conv : Conversation)
    (hfind : st.conversations.find?
        (fun c => c.dealershipId == d && c.contactId == contactId) = some conv) :
    (getOrCreateConversation d contactId ts st).2.conversations
      = st.conversations.map (fun c =>
          if c.id == conv.id then
            { c with lastMessageAt := ts, unreadCount := conv.unreadCount + 1,
                     status := "open" }
          else c) := by
  unfold getOrCreateConversation
  rw [hfind]

/-- Witness for the amended C5 at `c5Store` with the older timestamp 50. -/
theorem c5_last_message_at_overwritten_witness :
    (c5Store.conversations.find? (fun c => c.dealershipId == 1 && c.contactId == 0)
        = some ⟨1, 1, 0, "open", 3, 100⟩)
    ∧ (getOrCreateConversation 1 0 50 c5Store).2.conversations
        = c5Store.conversations.map (fun c =>
            if c.id == 1 then
              { c with lastMessageAt := 50, unreadCount := 3 + 1, status := "open" }
            else c) :=
  ⟨by decide,
   c5_last_message_at_overwritten 1 0 50 c5Store ⟨1, 1, 0, "open", 3, 100⟩ (by decide)⟩

/-! ## C4 — cross-tenant sends are an indistinguishable 404 -/

/-- C4: an authenticated send whose conversation id does not match any
conversation of the caller's tenant — whether the id belongs to another
tenant or does not exist at all — yields 404 `conversation_not_found`
with the store untouched, identically in both send_text implementations.
The hypothesis covers both cases at once, so the two responses are one
and the same term: no existence leak distinguishes them. -/
theorem c4_cross_tenant_send_not_found (env : Env) (channels : List WaChannel)
    (auth : Auth) (conversationId : Nat) (text : String) (outcome : WaSendOutcome)
    (now : Nat) (st : Store)
    (htext : (text.length < 1 || 4000 < text.length) = false)
    (h : ∀ c ∈ st.conversations, ¬(c.id = conversationId ∧ c.dealershipId = auth.dealershipId)) :
    sendTextVercel env channels auth conversationId text outcome now st
        = (⟨404, "conversation_not_found"⟩, st)
    ∧ sendTextExpress env channels auth conversationId text outcome now st
        = (⟨404, "conversation_not_found"⟩, st) := by
  have hfind : st.conversations.find?
      (fun c => c.id == conversationId && c.dealershipId == auth.dealershipId) = none := by
    rw [List.find?_eq_none]
    intro c hc
    simpa using h c hc
  constructor
  · unfold sendTextVercel
    rw [htext, hfind]
    rfl
  · unfold sendTextExpress
    rw [htext, hfind]
    rfl

/-- Witness for C4: tenant-1 caller referencing conversation 10, which
exists but belongs to tenant 2. -/
theorem c4_cross_tenant_send_not_found_witness :
    ((("hola" : String).length < 1 || 4000 < ("hola" : String).length) = false
      ∧ ∀ c ∈ c4Store.conversations, ¬(c.id = 10 ∧ c.dealershipId = (⟨7, 1⟩ : Auth).dealershipId))
    ∧ (sendTextVercel c2Env [] ⟨7, 1⟩ 10 "hola" (.ok (some "w")) 0 c4Store
        = (⟨404, "conversation_not_found"⟩, c4Store)
      ∧ sendTextExpress c2Env [] ⟨7, 1⟩ 10 "hola" (.ok (some "w")) 0 c4Store
        = (⟨404, "conversation_not_found"⟩, c4Store)) :=
  ⟨⟨by decide, by decide⟩,
   c4_cross_tenant_send_not_found c2Env [] ⟨7, 1⟩ 10 "hola" (.ok (some "w")) 0 c4Store
     (by decide) (by decide)⟩

/-! ## C1 — repeated delivery: one message row, but unread_count counts
every delivery -/

theorem c1_deliver_first : c1Deliver emptyStore = c1StateAfter 1 := by decide

theorem c1_deliver_step (k : Nat) : c1Deliver (c1StateAfter k) = c1StateAfter (k + 1) := rfl

theorem c1_deliver_iterated (k : Nat) :
    c1Deliver^[k + 1] emptyStore = c1StateAfter (k + 1) := by
  induction k with
  | zero => simpa using c1_deliver_first
  | succ k ih => rw [Function.iterate_succ_apply', ih, c1_deliver_step]

/-- C1 counterexample: delivering the identical payload twice leaves
exactly one stored message row for `"wamid.A"`, but the conversation's
`unread_count` is 2 — the increment is applied again on the duplicate
delivery, contradicting "increases by at most 1 in total". -/
theorem c1_counterexample :
    ((c1Deliver (c1Deliver emptyStore)).messages.filter
        (fun m => m.waMessageId == some "wamid.A")).length = 1
    ∧ (c1Deliver (c1Deliver emptyStore)).conversations.map (fun c => c.unreadCount) = [2]
    ∧ ¬((c1Deliver (c1Deliver emptyStore)).conversations.all
        (fun c => c.unreadCount ≤ 1) = true) := by
  decide

/-- C1 amended: delivering the same webhook payload `n ≥ 1` times results
in exactly one stored message row for its provider message id, but the
conversation's `unread_count` ends at `n`, not at most 1: the conversation
counter is incremented before the message-insert duplicate check, so the
increment is not skipped on duplicate deliveries. -/
theorem c1_repeat_delivery (n : Nat) (h : 1 ≤ n) :
    ((c1Deliver^[n] emptyStore).messages.filter
        (fun m => m.waMessageId == some "wamid.A")).length = 1
    ∧ (c1Deliver^[n] emptyStore).conversations.map (fun c => c.unreadCount) = [n] := by
  obtain ⟨k, rfl⟩ : ∃ k, n = k + 1 := ⟨n - 1, (Nat.succ_pred_eq_of_pos h).symm⟩
  rw [c1_deliver_iterated]
  exact ⟨rfl, rfl⟩

/-- Witness for the amended C1 at `n = 2`. -/
theorem c1_repeat_delivery_witness :
    1 ≤ 2
    ∧ (((c1Deliver^[2] emptyStore).messages.filter
          (fun m => m.waMessageId == some "wamid.A")).length = 1
      ∧ (c1Deliver^[2] emptyStore).conversations.map (fun c => c.unreadCount) = [2]) :=
  ⟨by decide, c1_repeat_delivery 2 (by decide)⟩

/-! ## C2 — outbound send state machine -/

theorem patchMessage_append_fresh (msgs : List Message) (mid : Nat) (f : Message → Message)
    (m : Message) (hfresh : ∀ x ∈ msgs, (x.id == mid) = false) (hm : (m.id == mid) = true) :
    patchMessage (msgs ++ [m]) mid f = msgs ++ [f m] := by
  unfold patchMessage
  rw [List.map_append]
  congr 1
  · apply list_map_self_of_mem
    intro x hx
    simp [hfresh x hx]
  · simp only [List.map_cons, List.map_nil, hm, if_true]

/-- C2 counterexample: in the Express `send_text` route a failing provider
call leaves the message row `queued` — it is never transitioned to
`failed` (the catch-all handler answers 400 without patching the row). -/
theorem c2_counterexample :
    ((sendTextExpress c2Env [] ⟨7, 1⟩ 10 "hola" (.err "boom") 999 c2Store).2.messages.map
        (fun m => m.status) = ["queued"])
    ∧ ((sendTextExpress c2Env [] ⟨7, 1⟩ 10 "hola" (.err "boom") 999 c2Store).2.messages.map
        (fun m => m.status) ≠ ["failed"])
    ∧ (sendTextExpress c2Env [] ⟨7, 1⟩ 10 "hola" (.err "boom") 999 c2Store).1.status = 400 := by
  decide

/-- C2 amended: in the serverless `send_text` handler a successful provider
call transitions the row `queued → sent` with the provider id taken from
the response attached (`none` exactly when the 2xx body carried no id) and
advances the conversation's `last_message_at`; a failed provider call
transitions the row `queued → failed` with provider id left `none` and
leaves every conversation untouched.  In the Express route a failed
provider call instead leaves the row `queued` (and also does not touch
`last_message_at`). -/
theorem c2_send_state_machine (env : Env) (channels : List WaChannel) (auth : Auth)
    (conversationId : Nat) (text : String) (d : String) (oid : Option String) (now : Nat)
    (st : Store) (conv : Conversation) (contact : Contact) (pn : String)
    (htext : (text.length < 1 || 4000 < text.length) = false)
    (hconv : st.conversations.find?
        (fun c => c.id == conversationId && c.dealershipId == auth.dealershipId) = some conv)
    (hcontact : st.contacts.find? (fun c => c.id == conv.contactId) = some contact)
    (hphone : (contact.phone == "") = false)
    (hpn : resolvePhoneNumberId env channels auth.dealershipId = some pn)
    (hfresh : ∀ m ∈ st.messages, (m.id == st.nextId) = false) :
    (sendTextVercel env channels auth conversationId text (.err d) now st
      = (⟨502, "whatsapp_send_failed"⟩,
         { st with
             messages := st.messages ++
               [⟨st.nextId, auth.dealershipId, conversationId, "out", "text",
                 some text, "failed", none⟩],
             nextId := st.nextId + 1 }))
    ∧ (sendTextVercel env channels auth conversationId text (.ok oid) now st
      = (⟨200, "sent"⟩,
         { st with
             conversations := st.conversations.map (fun c =>
               if c.id == conversationId then { c with lastMessageAt := now } else c),
             messages := st.messages ++
               [⟨st.nextId, auth.dealershipId, conversationId, "out", "text",
                 some text, "sent", oid⟩],
             nextId := st.nextId + 1 }))
    ∧ (sendTextExpress env channels auth conversationId text (.err d) now st
      = (⟨400, "send_text_error"⟩,
         { st with
             messages := st.messages ++
               [⟨st.nextId, auth.dealershipId, conversationId, "out", "text",
                 some text, "queued", none⟩],
             nextId := st.nextId + 1 })) := by
  have hpatchFailed :
      patchMessage (st.messages ++
          [⟨st.nextId, auth.dealershipId, conversationId, "out", "text",
            some text, "queued", none⟩]) st.nextId
        (fun m => { m with status := "failed" })
      = st.messages ++
          [⟨st.nextId, auth.dealershipId, conversationId, "out", "text",
            some text, "failed", none⟩] := by
    rw [patchMessage_append_fresh st.messages st.nextId _ _ hfresh (by simp)]
  have hpatchSent :
      patchMessage (st.messages ++
          [⟨st.nextId, auth.dealershipId, conversationId, "out", "text",
            some text, "queued", none⟩]) st.nextId
        (fun m => { m with status := "sent", waMessageId := oid })
      = st.messages ++
          [⟨st.nextId, auth.dealershipId, conversationId, "out", "text",
            some text, "sent", oid⟩] := by
    rw [patchMessage_append_fresh st.messages st.nextId _ _ hfresh (by simp)]
  refine ⟨?_, ?_, ?_⟩
  · simp only [sendTextVercel, htext, hconv, hcontact, hphone, hpn, Bool.false_eq_true,
      if_false, hpatchFailed]
  · simp only [sendTextVercel, htext, hconv, hcontact, hphone, hpn, Bool.false_eq_true,
      if_false, hpatchSent]
  · simp only [sendTextExpress, htext, hconv, hcontact, hpn, Bool.false_eq_true, if_false]

/-- Witness for the amended C2 at a concrete tenant-1 conversation. -/
theorem c2_send_state_machine_witness :
    ((("hola" : String).length < 1 || 4000 < ("hola" : String).length) = false
      ∧ c2Store.conversations.find?
          (fun c => c.id == 10 && c.dealershipId == (⟨7, 1⟩ : Auth).dealershipId)
          = some ⟨10, 1, 5, "open", 0, 0⟩
      ∧ c2Store.contacts.find?
          (fun c => c.id == (⟨10, 1, 5, "open", 0, 0⟩ : Conversation).contactId)
          = some ⟨5, 1, "+549", 0⟩
      ∧ ((⟨5, 1, "+549", 0⟩ : Contact).phone == "") = false
      ∧ resolvePhoneNumberId c2Env [] (⟨7, 1⟩ : Auth).dealershipId = some "PN"
      ∧ ∀ m ∈ c2Store.messages, (m.id == c2Store.nextId) = false)
    ∧ ((sendTextVercel c2Env [] ⟨7, 1⟩ 10 "hola" (.err "boom") 999 c2Store
        = (⟨502, "whatsapp_send_failed"⟩,
           { c2Store with
               messages := c2Store.messages ++
                 [⟨c2Store.nextId, (⟨7, 1⟩ : Auth).dealershipId, 10, "out", "text",
                   some "hola", "failed", none⟩],
               nextId := c2Store.nextId + 1 }))
      ∧ (sendTextVercel c2Env [] ⟨7, 1⟩ 10 "hola" (.ok (some "wamid.B")) 999 c2Store
        = (⟨200, "sent"⟩,
           { c2Store with
               conversations := c2Store.conversations.map (fun c =>
                 if c.id == 10 then { c with lastMessageAt := 999 } else c),
               messages := c2Store.messages ++
                 [⟨c2Store.nextId, (⟨7, 1⟩ : Auth).dealershipId, 10, "out", "text",
                   some "hola", "sent", some "wamid.B"⟩],
               nextId := c2Store.nextId + 1 }))
      ∧ (sendTextExpress c2Env [] ⟨7, 1⟩ 10 "hola" (.err "boom") 999 c2Store
        = (⟨400, "send_text_error"⟩,
           { c2Store with
               messages := c2Store.messages ++
                 [⟨c2Store.nextId, (⟨7, 1⟩ : Auth).dealershipId, 10, "out", "text",
                   some "hola", "queued", none⟩],
               nextId := c2Store.nextId + 1 }))) :=
  ⟨⟨by decide, by decide, by decide, by decide, by decide, by decide⟩,
   c2_send_state_machine c2Env [] ⟨7, 1⟩ 10 "hola" "boom" (some "wamid.B") 999 c2Store
     ⟨10, 1, 5, "open", 0, 0⟩ ⟨5, 1, "+549", 0⟩ "PN"
     (by decide) (by decide) (by decide) (by decide) (by decide) (by decide)⟩

/-! ## C3 — webhook transport-level success policy -/

/-- C3 counterexample: the Express webhook route answers 500 when tenant
resolution fails (no channel mapping, no default tenant), although the
body was parsed and the signature check passed — a downstream failure is
propagated as a non-2xx response. -/
theorem c3_counterexample :
    (waWebhookPost ⟨none, none⟩ [] [] 0 true c3Payload emptyStore).1.status = 500
    ∧ (waWebhookPost ⟨none, none⟩ [] [] 0 true c3Payload emptyStore).1.status ≠ 200 := by
  decide

/-- C3 amended: the serverless webhook handler answers 200 to every POST —
unparseable body, tenant-resolution failure and per-message persistence
errors included.  The Express route instead propagates a tenant-resolution
failure as 500 `missing_dealership_mapping` (and its outer catch turns any
message-loop error into 500 `webhook_error`). -/
theorem c3_webhook_transport_policy :
    (∀ env channels faults now body st,
        (webhookHandlerPost env channels faults now body st).1.status = 200)
    ∧ (∀ env channels faults now body st,
        expressResolveDealership env channels body = none →
        waWebhookPost env channels faults now true body st
          = (⟨500, "missing_dealership_mapping"⟩, st)) := by
  constructor
  · intro env channels faults now body st
    cases body with
    | none => rfl
    | some b =>
      unfold webhookHandlerPost
      cases hres : resolveDealershipId env channels b with
      | error e => simp [hres]
      | ok d =>
        simp only [hres]
        split
        · rfl
        · rfl
  · intro env channels faults now body st h
    unfold waWebhookPost
    simp [h]

/-- Witness for the amended C3: a parsed-but-failing request on each
implementation. -/
theorem c3_webhook_transport_policy_witness :
    ((webhookHandlerPost ⟨none, none⟩ [] [] 0 (some c3Payload) emptyStore).1.status = 200)
    ∧ (expressResolveDealership ⟨none, none⟩ [] c3Payload = none
      ∧ waWebhookPost ⟨none, none⟩ [] [] 0 true c3Payload emptyStore
          = (⟨500, "missing_dealership_mapping"⟩, emptyStore)) :=
  ⟨c3_webhook_transport_policy.1 ⟨none, none⟩ [] [] 0 (some c3Payload) emptyStore,
   by decide,
   c3_webhook_transport_policy.2 ⟨none, none⟩ [] [] 0 c3Payload emptyStore (by decide)⟩

/-! ## C6 — per-entry isolation inside a batch -/

theorem handleInbound_fault (faults : List String) (d : Nat) (msg : InboundMessage)
    (st : Store)
    (hbad : faults.contains
        (if strStartsWithPlus msg.msgFrom then msg.msgFrom else "+" ++ msg.msgFrom) = true) :
    handleInboundToSupabase faults d msg st = .error "contact_upsert_failed" := by
  simp only [handleInboundToSupabase, upsertContact, hbad, if_true]

/-- C6 counterexample: in the Express webhook route a persistence failure
on the first message of a batch aborts the loop — the second, well-formed
message of the same batch is never processed (no message row, no contact
row), and the route answers 500. -/
theorem c6_counterexample :
    (waWebhookPost c1Env c1Channels ["+666"] 0 true c6Payload emptyStore).1.status = 500
    ∧ (waWebhookPost c1Env c1Channels ["+666"] 0 true c6Payload emptyStore).2.messages = []
    ∧ (waWebhookPost c1Env c1Channels ["+666"] 0 true c6Payload emptyStore).2.contacts = [] := by
  decide

/-- C6 amended: in the serverless webhook handler each entry of a batch is
attempted inside its own try/catch: an entry whose persistence fails
contributes nothing and the remaining entries are processed exactly as if
the failing entry were absent.  In the Express route a failing entry
instead aborts the rest of the batch. -/
theorem c6_per_entry_isolation (faults : List String) (d : Nat)
    (xs ys : List InboundMessage) (bad : InboundMessage) (st : Store)
    (hbad : faults.contains
        (if strStartsWithPlus bad.msgFrom then bad.msgFrom else "+" ++ bad.msgFrom) = true) :
    runInboundIsolated faults d (xs ++ bad :: ys) st
      = runInboundIsolated faults d (xs ++ ys) st := by
  induction xs generalizing st with
  | nil =>
    simp only [List.nil_append]
    simp only [runInboundIsolated]
    rw [handleInbound_fault faults d bad st hbad]
  | cons x xs ih =>
    simp only [List.cons_append]
    simp only [runInboundIsolated]
    cases h : handleInboundToSupabase faults d x st with
    | ok st' =>
      simp only [h]
      exact ih st'
    | error e =>
      simp only [h]
      exact ih st

/-- Witness for the amended C6: the failing entry `c6BadMsg` (as parsed)
is skipped and processing the batch equals processing the good entry
alone. -/
theorem c6_per_entry_isolation_witness :
    ((["+666"] : List String).contains
        (if strStartsWithPlus (⟨"666", "wamid.B1", "text", some "x", 10⟩ : InboundMessage).msgFrom
         then (⟨"666", "wamid.B1", "text", some "x", 10⟩ : InboundMessage).msgFrom
         else "+" ++ (⟨"666", "wamid.B1", "text", some "x", 10⟩ : InboundMessage).msgFrom) = true)
    ∧ runInboundIsolated ["+666"] 1
        ([] ++ ⟨"666", "wamid.B1", "text", some "x", 10⟩ ::
          [⟨"777", "wamid.G1", "text", some "y", 11⟩]) emptyStore
      = runInboundIsolated ["+666"] 1
          ([] ++ [⟨"777", "wamid.G1", "text", some "y", 11⟩]) emptyStore :=
  ⟨by decide,
   c6_per_entry_isolation ["+666"] 1 [] [⟨"777", "wamid.G1", "text", some "y", 11⟩]
     ⟨"666", "wamid.B1", "text", some "x", 10⟩ emptyStore (by decide)⟩

/-! ## C7 — only the first change of the first entry is read -/

theorem firstChangeValue_firstChangeOnly (p : WaPayload) :
    firstChangeValue (firstChangeOnly p) = firstChangeValue p := by
  obtain ⟨entry⟩ := p
  cases entry with
  | nil => rfl
  | cons e es =>
    obtain ⟨changes⟩ := e
    cases changes with
    | nil => rfl
    | cons c cs => rfl

theorem payloadPhoneNumberId_firstChangeOnly (p : WaPayload) :
    payloadPhoneNumberId (firstChangeOnly p) = payloadPhoneNumberId p := by
  unfold payloadPhoneNumberId
  rw [firstChangeValue_firstChangeOnly]

theorem resolveDealershipId_firstChangeOnly (env : Env) (channels : List WaChannel)
    (p : WaPayload) :
    resolveDealershipId env channels (firstChangeOnly p)
      = resolveDealershipId env channels p := by
  unfold resolveDealershipId
  rw [payloadPhoneNumberId_firstChangeOnly]

theorem parseInboundMessages_firstChangeOnly (now : Nat) (p : WaPayload) :
    parseInboundMessages now (firstChangeOnly p) = parseInboundMessages now p := by
  unfold parseInboundMessages
  rw [firstChangeValue_firstChangeOnly]

theorem expressResolveDealership_firstChangeOnly (env : Env) (channels : List WaChannel)
    (p : WaPayload) :
    expressResolveDealership env channels (firstChangeOnly p)
      = expressResolveDealership env channels p := by
  unfold expressResolveDealership
  rw [payloadPhoneNumberId_firstChangeOnly]

/-- C7 counterexample: a payload carrying one message in each of two entry
elements; after processing, only the first entry's message (`wamid.X`) is
stored — `wamid.Y`, sitting in the second entry, is dropped. -/
theorem c7_counterexample :
    ((waWebhookPost c1Env c1Channels [] 0 true c7Payload emptyStore).2.messages.map
        (fun m => m.waMessageId) = [some "wamid.X"])
    ∧ ∀ m ∈ (waWebhookPost c1Env c1Channels [] 0 true c7Payload emptyStore).2.messages,
        m.waMessageId ≠ some "wamid.Y" := by
  decide

/-- C7 amended: both webhook implementations read the envelope only
through `entry[0].changes[0].value`: processing any payload is identical
to processing its truncation to the first change of the first entry, so
events in later entry or changes elements are ignored.  Within that first
change the Express route applies all batched message entries and all
batched status entries (demonstrated on a batch of two messages plus two
statuses), while the serverless handler applies only the message entries —
its result is invariant under replacing the status entries. -/
theorem c7_only_first_change_processed :
    (∀ env channels faults now body st,
        webhookHandlerPost env channels faults now (some body) st
          = webhookHandlerPost env channels faults now (some (firstChangeOnly body)) st)
    ∧ (∀ env channels faults now sigOk body st,
        waWebhookPost env channels faults now sigOk body st
          = waWebhookPost env channels faults now sigOk (firstChangeOnly body) st)
    ∧ ((waWebhookPost c1Env c1Channels [] 0 true c7BatchPayload emptyStore).2.messages.map
          (fun m => (m.waMessageId, m.status))
        = [(some "wamid.X", "read"), (some "wamid.Y", "failed")])
    ∧ (∀ env channels faults now st pid msgs sts1 sts2,
        webhookHandlerPost env channels faults now (some ⟨[⟨[⟨pid, msgs, sts1⟩]⟩]⟩) st
          = webhookHandlerPost env channels faults now (some ⟨[⟨[⟨pid, msgs, sts2⟩]⟩]⟩) st) := by
  refine ⟨?_, ?_, by decide, ?_⟩
  · intro env channels faults now body st
    unfold webhookHandlerPost
    dsimp only
    rw [resolveDealershipId_firstChangeOnly, parseInboundMessages_firstChangeOnly]
  · intro env channels faults now sigOk body st
    unfold waWebhookPost
    rw [expressResolveDealership_firstChangeOnly, firstChangeValue_firstChangeOnly]
  · intro env channels faults now st pid msgs sts1 sts2
    rfl

/-! ## C10 — status reconciliation is keyed by provider id alone -/

theorem zip_self_filter_ne_nil {α : Type} [DecidableEq α] (l : List α) :
    (l.zip l).filter (fun q => decide (q.1 ≠ q.2)) = [] := by
  induction l with
  | nil => rfl
  | cons a l ih => simpa using ih

theorem map_change_count_le_one {α : Type} [DecidableEq α] (l : List α) (f : α → α)
    (p : α → Bool) (hf : ∀ a, p a = false → f a = a)
    (hl : (l.filter p).length ≤ 1) :
    ((l.zip (l.map f)).filter (fun q => decide (q.1 ≠ q.2))).length ≤ 1 := by
  induction l with
  | nil => simp
  | cons a l ih =>
    rcases Bool.eq_false_or_eq_true (p a) with hpa | hpa
    · -- `a` can change; then nothing in the tail may match `p`
      have htail : l.filter p = [] := by
        rw [List.filter_cons, hpa] at hl
        simp only [if_true, List.length_cons] at hl
        exact List.length_eq_zero.mp (Nat.le_zero.mp (Nat.lt_succ_iff.mp
          (Nat.lt_of_lt_of_le (Nat.lt_succ_of_le (Nat.le_refl _)) hl)))
      have hmap : l.map f = l := by
        apply list_map_self_of_mem
        intro x hx
        exact hf x (by
          have := List.filter_eq_nil_iff.mp htail x hx
          exact Bool.eq_false_iff.mpr this)
      simp only [List.map_cons, List.zip_cons_cons, List.filter_cons, hmap,
        zip_self_filter_ne_nil]
      rcases Bool.eq_false_or_eq_true (decide (a ≠ f a)) with hd | hd
      · simp [hd]
      · simp [hd]
    · -- `a` is unchanged; recurse on the tail
      have hfa := hf a hpa
      have hl' : (l.filter p).length ≤ 1 := by
        rw [List.filter_cons, hpa] at hl
        simpa using hl
      have := ih hl'
      simp only [List.map_cons, List.zip_cons_cons, List.filter_cons, hfa]
      simpa using this

/-- C10: the status-reconciliation update is keyed by the provider message
id alone and not filtered by the tenant resolved from the envelope: the
store is length-preserved, rows not bearing the id are kept as they are,
every row bearing the id — whatever its tenant — gets the mapped status,
and under the storage layer's global uniqueness of non-null provider ids
(`messages_wa_message_id_uq`) at most one row changes.  At route level,
the store produced for a statuses-only payload is `expressRunStatuses`
applied to the store, a function of the status events alone — independent
of which tenant the envelope resolved to. -/
theorem c10_status_update_ignores_tenant (st : Store) (s : WaStatusEvent)
    (wid stat : String)
    (hid : s.id = some wid) (hwid : (wid == "") = false)
    (hstat : s.status = some stat) (hne : (stat == "") = false)
    (huniq : (st.messages.filter (fun m => m.waMessageId == some wid)).length ≤ 1) :
    ((applyStatusEvent st s).messages.length = st.messages.length)
    ∧ (∀ m ∈ st.messages, m.waMessageId ≠ some wid →
        m ∈ (applyStatusEvent st s).messages)
    ∧ (∀ m ∈ st.messages, m.waMessageId = some wid →
        { m with status := mapWaStatus stat } ∈ (applyStatusEvent st s).messages)
    ∧ (((st.messages.zip (applyStatusEvent st s).messages).filter
          (fun q => decide (q.1 ≠ q.2))).length ≤ 1)
    ∧ (∀ env channels faults now p st0 d v,
        expressResolveDealership env channels p = some d →
        firstChangeValue p = some v →
        v.messages = [] →
        (waWebhookPost env channels faults now true p st0).2
          = expressRunStatuses v.statuses st0) := by
  have happ : applyStatusEvent st s
      = { st with messages :=
            st.messages.map (fun m =>
              if m.waMessageId == some wid then { m with status := mapWaStatus stat }
              else m) } := by
    unfold applyStatusEvent
    rw [hid, hstat]
    simp only [Option.getD_some, hwid, hne, Bool.or_self, Bool.false_eq_true, if_false]
  refine ⟨?_, ?_, ?_, ?_, ?_⟩
  · rw [happ]
    exact List.length_map st.messages _
  · intro m hm hne'
    rw [happ]
    refine List.mem_map.mpr ⟨m, hm, ?_⟩
    simp [hne']
  · intro m hm heq
    rw [happ]
    refine List.mem_map.mpr ⟨m, hm, ?_⟩
    simp [heq]
  · rw [happ]
    exact map_change_count_le_one st.messages _ _
      (fun a ha => by simp only [ha, Bool.false_eq_true, if_false]) huniq
  · intro env channels faults now p st0 d v hres hval hmsgs
    unfold waWebhookPost
    rw [hres, hval]
    simp [hmsgs, expressRunMessages]

/-- Witness for C10: a `read` status for `"wamid.T"` arriving on a channel
of tenant 1 while the only matching message row belongs to tenant 2. -/
theorem c10_status_update_ignores_tenant_witness :
    ((⟨some "wamid.T", some "read"⟩ : WaStatusEvent).id = some "wamid.T"
      ∧ (("wamid.T" : String) == "") = false
      ∧ (⟨some "wamid.T", some "read"⟩ : WaStatusEvent).status = some "read"
      ∧ (("read" : String) == "") = false
      ∧ (c10Store.messages.filter (fun m => m.waMessageId == some "wamid.T")).length ≤ 1)
    ∧ (((applyStatusEvent c10Store ⟨some "wamid.T", some "read"⟩).messages.length
          = c10Store.messages.length)
      ∧ (∀ m ∈ c10Store.messages, m.waMessageId ≠ some "wamid.T" →
          m ∈ (applyStatusEvent c10Store ⟨some "wamid.T", some "read"⟩).messages)
      ∧ (∀ m ∈ c10Store.messages, m.waMessageId = some "wamid.T" →
          { m with status := mapWaStatus "read" }
            ∈ (applyStatusEvent c10Store ⟨some "wamid.T", some "read"⟩).messages)
      ∧ (((c10Store.messages.zip
            (applyStatusEvent c10Store ⟨some "wamid.T", some "read"⟩).messages).filter
            (fun q => decide (q.1 ≠ q.2))).length ≤ 1)
      ∧ (∀ env channels faults now p st0 d v,
          expressResolveDealership env channels p = some d →
          firstChangeValue p = some v →
          v.messages = [] →
          (waWebhookPost env channels faults now true p st0).2
            = expressRunStatuses v.statuses st0)) :=
  ⟨⟨rfl, by decide, rfl, by decide, by decide⟩,
   c10_status_update_ignores_tenant c10Store ⟨some "wamid.T", some "read"⟩ "wamid.T" "read"
     rfl (by decide) rfl (by decide) (by decide)⟩

end WaApp
